import Mathlib

/-!
Shallow embedding of the mission-relative LED cue player of the
Autonomous-Drone-for-Light-Painting repository
(`pi_scripts/mission_led_runtime.py`, `pi_scripts/mission_led.py`,
`pi_scripts/led25.py`), together with theorems settling the spec claims
about the playback loop, the plan loaders and the command sink.

Python strings are modelled as Lean `String` (list of characters); the
Python `dict` loaded from a JSON plan document is modelled as an
association list in insertion order; subprocess and hardware failures are
modelled by explicit `Except` values and boolean failure schedules.
-/

namespace DroneLED

/-- Python `str.lower()` restricted to ASCII case mapping, which covers the
color and directive vocabulary of the scripts. -/
def pyLower (s : String) : String :=
  String.mk (s.data.map Char.toLower)

/-- Python `str.strip()`: drop leading and trailing whitespace. -/
def pyStrip (s : String) : String :=
  String.mk (((s.data.dropWhile Char.isWhitespace).reverse.dropWhile
    Char.isWhitespace).reverse)

/-- Decimal value of a digit run; `none` when a non-digit appears. -/
def digitsValAux : List Char → Nat → Option Nat
  | [], acc => some acc
  | c :: cs, acc =>
    if c.isDigit then digitsValAux cs (acc * 10 + (c.toNat - 48)) else none

/-- Decimal value of a nonempty all-digit character list. -/
def digitsVal : List Char → Option Nat
  | [] => none
  | c :: cs => digitsValAux (c :: cs) 0

/-- Python `int(s)` on a string: strip whitespace, optional single sign,
then decimal digits; `none` models a raised `ValueError`. -/
def pyInt (s : String) : Option Int :=
  match (pyStrip s).data with
  | '-' :: rest => (digitsVal rest).map (fun n => -(n : Int))
  | '+' :: rest => (digitsVal rest).map (fun n => (n : Int))
  | l => (digitsVal l).map (fun n => (n : Int))

/-- `COLOR_MAP` of `led25.py`: the fixed color-name to RGB table. -/
def COLOR_MAP : List (String × (Nat × Nat × Nat)) :=
  [("red", (255, 0, 0)),
   ("green", (0, 255, 0)),
   ("blue", (0, 0, 255)),
   ("brown", (255, 100, 20)),
   ("white", (255, 255, 255)),
   ("yellow", (255, 255, 0)),
   ("cyan", (0, 255, 255)),
   ("magenta", (255, 0, 255)),
   ("orange", (255, 165, 0)),
   ("purple", (128, 0, 128)),
   ("pink", (255, 105, 180)),
   ("warmwhite", (255, 244, 229)),
   ("coldwhite", (200, 220, 255)),
   ("off", (0, 0, 0))]

/-- `main` of `led25.py` on its argument vector (after the script name):
returns the RGB triple applied to all pixels, or exit code 1 through
`usage()` when the argument count is wrong or the color is unknown. -/
def led25Main (argv : List String) : Except Nat (Nat × Nat × Nat) :=
  match argv with
  | [arg] =>
    match COLOR_MAP.lookup (pyLower arg) with
    | some rgb => Except.ok rgb
    | none => Except.error 1
  | _ => Except.error 1

/-- `get_led_command` of `mission_led_runtime.py`: `none` means no change,
otherwise the stripped, lower-cased command string for the waypoint. -/
def get_led_command (led_cfg : List (String × String)) (wp_index : Int) :
    Option String :=
  match led_cfg.lookup (toString wp_index) with
  | none => none
  | some v =>
    let val := pyStrip v
    if val = "" then none else some (pyLower val)

/-- Cue directive variants of the spec data model. -/
inductive Directive
  | noChange
  | off
  | setColor (name : String)
deriving DecidableEq

/-- Spec-side view of a resolved command string as a directive variant. -/
def directiveOf : Option String → Directive
  | none => Directive.noChange
  | some c => if c = "off" then Directive.off else Directive.setColor c

/-- Directive resolved by the runtime engine for a waypoint index. -/
def resolveDirective (cfg : List (String × String)) (wp : Int) : Directive :=
  directiveOf (get_led_command cfg wp)

/-- Top-level JSON value shapes relevant to the plan loaders. -/
inductive PyValue
  | dict (entries : List (String × String))
  | str (s : String)
  | num (n : Int)
deriving DecidableEq

/-- State of the selected plan file as the loader finds it: absent,
present but raising on read/decode, or parsed to a value. -/
inductive DocState
  | missing
  | unparsable
  | parsed (v : PyValue)
deriving DecidableEq

/-- The `read_text` plus `json.loads` step as a fallible computation; the
error constructor models the raised exception. -/
def readDoc : DocState → Except String PyValue
  | DocState.missing => Except.error "FileNotFoundError"
  | DocState.unparsable => Except.error "JSONDecodeError"
  | DocState.parsed v => Except.ok v

/-- `load_led_config` of `mission_led_runtime.py`: a missing file yields the
empty dict before the try block; any exception from reading or decoding is
caught and yields the empty dict; a parsed non-dict value yields the empty
dict; a parsed dict is returned as is. -/
def load_led_config : DocState → List (String × String)
  | DocState.missing => []
  | d =>
    match readDoc d with
    | Except.error _ => []
    | Except.ok (PyValue.dict entries) => entries
    | Except.ok _ => []

/-- Python dict assignment `m[k] = v`: replace the value at `k` in place if
present, otherwise append the pair at the end. -/
def dictInsert (m : List (Int × String)) (k : Int) (v : String) :
    List (Int × String) :=
  if m.any (fun p => p.1 == k) then
    m.map (fun p => if p.1 == k then (k, v) else p)
  else m ++ [(k, v)]

/-- Body of the `load_led_map` loop of `mission_led.py`: a key that fails
`int()` is skipped with a warning, otherwise the lower-cased value is
stored under the parsed index. -/
def mlLoadStep (m : List (Int × String)) (kv : String × String) :
    List (Int × String) :=
  match pyInt kv.1 with
  | none => m
  | some idx => dictInsert m idx (pyLower kv.2)

/-- `load_led_map` of `mission_led.py`: fold the loop body over the raw
entries in document order. -/
def load_led_map (raw : List (String × String)) : List (Int × String) :=
  raw.foldl mlLoadStep []

/-- Telemetry messages as the loops classify them; a `recv_match` timeout is
its own constructor. -/
inductive Msg
  | heartbeat
  | missionCurrent (seq : Int)
  | itemReached (seq : Int)
  | other
  | timeout
deriving DecidableEq

/-- Mutable loop state of `mission_led_runtime.py` `main`. -/
structure RTState where
  current_wp : Option Int
  current_color : Option String
deriving DecidableEq

/-- Initial runtime loop state: `current_wp = None`, `current_color = None`. -/
def initRT : RTState := ⟨none, none⟩

/-- One iteration of the `mission_led_runtime.py` loop body on one message:
the successor state and the color dispatched to `set_all_leds`, if any.
Non-`MISSION_CURRENT` messages, repeats of the current waypoint index,
blank directives and directives equal to `current_color` all dispatch
nothing, exactly as the chain of `continue` statements does. -/
def stepRT (cfg : List (String × String)) (s : RTState) (m : Msg) :
    RTState × Option String :=
  match m with
  | Msg.missionCurrent wp =>
    if s.current_wp = some wp then (s, none)
    else
      match get_led_command cfg wp with
      | none => (⟨some wp, s.current_color⟩, none)
      | some cmd =>
        if s.current_color = some cmd then (⟨some wp, s.current_color⟩, none)
        else (⟨some wp, some cmd⟩, some cmd)
  | _ => (s, none)

/-- Prepend an optional dispatch to a dispatch list. -/
def optCons : Option String → List String → List String
  | none, ds => ds
  | some c, ds => c :: ds

/-- Run the `mission_led_runtime.py` loop over a finite message list,
collecting the dispatched colors in order. -/
def runRT (cfg : List (String × String)) :
    RTState → List Msg → RTState × List String
  | s, [] => (s, [])
  | s, m :: ms =>
    let p := stepRT cfg s m
    let q := runRT cfg p.1 ms
    (q.1, optCons p.2 q.2)

/-- One invocation of the LED subprocess from the runtime engine; the error
constructor models a failed `sudo python3 led25.py` call. -/
def sinkCall (deviceFails : Bool) (color : String) : Except String Unit :=
  if deviceFails then Except.error "DeviceError" else Except.ok ()

/-- `set_all_leds` of `mission_led_runtime.py`: the subprocess is run with
`check=False` and any raised exception is caught and printed, so the call
always returns control to the loop whatever the device did. -/
def set_all_leds (deviceFails : Bool) (color : String) : Unit :=
  match sinkCall deviceFails color with
  | Except.ok u => u
  | Except.error _ => ()

/-- One runtime loop iteration with an explicit device-failure flag for the
dispatch, returning the attempted dispatch together with its failure flag.
As in the source, `current_color` is assigned on the line after
`set_all_leds` returns, with no inspection of the call's outcome. -/
def stepRTF (cfg : List (String × String)) (s : RTState) (fail : Bool)
    (m : Msg) : RTState × Option (String × Bool) :=
  match m with
  | Msg.missionCurrent wp =>
    if s.current_wp = some wp then (s, none)
    else
      match get_led_command cfg wp with
      | none => (⟨some wp, s.current_color⟩, none)
      | some cmd =>
        if s.current_color = some cmd then (⟨some wp, s.current_color⟩, none)
        else
          let _ := set_all_leds fail cmd
          (⟨some wp, some cmd⟩, some (cmd, fail))
  | _ => (s, none)

/-- Run the runtime loop under a device-failure schedule: the i-th entry of
the schedule drives the i-th sink call (missing entries mean success).
Records every attempted dispatch with its failure flag. -/
def runRTF (cfg : List (String × String)) :
    RTState → List Bool → List Msg → RTState × List (String × Bool)
  | s, _, [] => (s, [])
  | s, fl, m :: ms =>
    match stepRTF cfg s (fl.headD false) m with
    | (s1, none) => runRTF cfg s1 fl ms
    | (s1, some d) =>
      let q := runRTF cfg s1 fl.tail ms
      (q.1, d :: q.2)

/-- Loop of `mission_led.py` `main`: the state is just `current_color`; only
`MISSION_ITEM_REACHED` messages with a mapped sequence number can dispatch,
and only when the target differs from the current color. -/
def stepML (wp_to_color : List (Int × String)) (color : Option String)
    (m : Msg) : Option String × Option String :=
  match m with
  | Msg.itemReached seq =>
    match wp_to_color.lookup seq with
    | none => (color, none)
    | some target =>
      if color = some target then (color, none)
      else (some target, some target)
  | _ => (color, none)

/-- Run the `mission_led.py` loop over a finite message list, collecting the
dispatched colors in order. -/
def runML (wp_to_color : List (Int × String)) :
    Option String → List Msg → Option String × List String
  | c, [] => (c, [])
  | c, m :: ms =>
    let p := stepML wp_to_color c m
    let q := runML wp_to_color p.1 ms
    (q.1, optCons p.2 q.2)

/-- `mission_led.py` `main` when an operator interrupt arrives after `k`
loop iterations: the `except KeyboardInterrupt` handler around the loop
dispatches `off` once and `main` returns, so later telemetry is never
read. -/
def mlRunCancel (mp : List (Int × String)) (c : Option String)
    (msgs : List Msg) (k : Nat) : List String :=
  (runML mp c (msgs.take k)).2 ++ ["off"]

/-- `mission_led_runtime.py` `main` when an operator interrupt arrives after
`k` loop iterations: the `while True` loop has no surrounding handler, so
the process ends with only the dispatches already made and no shutdown
dispatch. -/
def rtRunCancel (cfg : List (String × String)) (s : RTState)
    (msgs : List Msg) (k : Nat) : List String :=
  (runRT cfg s (msgs.take k)).2

/-- Python `str.endswith` via character-list suffix test. -/
def pyEndsWith (s suff : String) : Bool :=
  suff.data.isSuffixOf s.data

/-- Exit behavior of `choose_led_plan`: exit code 1 when the plans
directory is missing or lists no `*.led.json` plain files; otherwise the
interactive prompt loops until a valid index is entered, so the function
can only return a selection (`none` here means it proceeds). `files` are
the names of the plain files in the plans directory. -/
def choose_led_plan_outcome (dirExists : Bool) (files : List String) :
    Option Nat :=
  if !dirExists then some 1
  else if files.filter (fun f => pyEndsWith f ".led.json") = [] then some 1
  else none

/-- Pre-loop exit code of `mission_led_runtime.py` `main`: `some c` means
the process exits with code `c` before the event loop; `none` means it
enters the loop, which never returns normally. An empty loaded config makes
`main` print and return, so the interpreter exits with code 0. -/
def runtimeStartExit (dirExists : Bool) (files : List String)
    (doc : DocState) : Option Nat :=
  match choose_led_plan_outcome dirExists files with
  | some c => some c
  | none => if (load_led_config doc).isEmpty then some 0 else none

/-- Pre-loop exit code of `mission_led.py` `main` (after the argv check):
code 1 through `usage()` when the config file is missing, code 1 when the
loaded map has no valid entries. -/
def missionLedStartExit (fileExists : Bool) (raw : List (String × String)) :
    Option Nat :=
  if !fileExists then some 1
  else if (load_led_map raw).isEmpty then some 1
  else none

/-- Whole-process model of `mission_led.py`: dispatches and exit code.
`cancel = some k` interrupts after `k` iterations and exits 0 through the
handler; `cancel = none` leaves the loop consuming `msgs` with no exit. -/
def missionLedSession (fileExists : Bool) (raw : List (String × String))
    (msgs : List Msg) (cancel : Option Nat) : List String × Option Nat :=
  if !fileExists then ([], some 1)
  else
    let mp := load_led_map raw
    if mp.isEmpty then ([], some 1)
    else
      match cancel with
      | some k => (mlRunCancel mp none msgs k, some 0)
      | none => ((runML mp none msgs).2, none)

/-- Whole-process model of `mission_led_runtime.py` without interrupts:
dispatches and pre-loop exit code. -/
def runtimeSession (dirExists : Bool) (files : List String) (doc : DocState)
    (msgs : List Msg) : List String × Option Nat :=
  match runtimeStartExit dirExists files doc with
  | some c => ([], some c)
  | none => ((runRT (load_led_config doc) initRT msgs).2, none)

/-- LED plan of the C1 scenario, in document order. -/
def planC1 : List (String × String) :=
  [("0", "OFF"), ("1", ""), ("2", "red"), ("3", ""), ("4", "green")]

/-- Telemetry of the C1 scenario: waypoint indices 0,0,1,2,2,3,4 as
`MISSION_CURRENT` messages. -/
def msgsC1 : List Msg :=
  [Msg.missionCurrent 0, Msg.missionCurrent 0, Msg.missionCurrent 1,
   Msg.missionCurrent 2, Msg.missionCurrent 2, Msg.missionCurrent 3,
   Msg.missionCurrent 4]

/-- Plan with two consecutive waypoints resolving to the same color, for
the device-failure retry scenario. -/
def planC2 : List (String × String) := [("0", "blue"), ("1", "blue")]

/-- Telemetry for the device-failure retry scenario. -/
def msgsC2 : List Msg := [Msg.missionCurrent 0, Msg.missionCurrent 1]

/-- Plan that sets red at waypoint 0, for the cancellation scenario. -/
def planC3 : List (String × String) := [("0", "red")]

/-- Plan whose only directive names a color absent from `COLOR_MAP`. -/
def planC4 : List (String × String) := [("0", "chartreuse")]

/-! Helper lemmas -/

theorem runRT_nil (cfg : List (String × String)) (s : RTState) :
    runRT cfg s [] = (s, []) := rfl

theorem runRT_cons (cfg : List (String × String)) (s : RTState) (m : Msg)
    (ms : List Msg) :
    runRT cfg s (m :: ms) =
      ((runRT cfg (stepRT cfg s m).1 ms).1,
        optCons (stepRT cfg s m).2 (runRT cfg (stepRT cfg s m).1 ms).2) := rfl

theorem runML_nil (m : List (Int × String)) (c : Option String) :
    runML m c [] = (c, []) := rfl

theorem runML_cons (mp : List (Int × String)) (c : Option String) (m : Msg)
    (ms : List Msg) :
    runML mp c (m :: ms) =
      ((runML mp (stepML mp c m).1 ms).1,
        optCons (stepML mp c m).2 (runML mp (stepML mp c m).1 ms).2) := rfl

theorem strmk_eq_empty (l : List Char) : String.mk l = "" ↔ l = [] := by
  rw [show ("" : String) = String.mk [] from rfl]
  exact ⟨fun h => by injection h, fun h => by rw [h]⟩

/-- Lower-casing a string yields the empty string exactly when the string
was empty. -/
theorem pyLower_eq_empty_iff (s : String) : pyLower s = "" ↔ s = "" := by
  unfold pyLower
  rw [strmk_eq_empty, List.map_eq_nil_iff]
  cases s with
  | mk l => simpa using (strmk_eq_empty l).symm

/-- Each runtime loop iteration either dispatches nothing and preserves
`current_color`, or dispatches exactly the color that becomes the new
`current_color`, which differs from the previous one. -/
theorem stepRT_spec (cfg : List (String × String)) (s : RTState) (m : Msg) :
    ((stepRT cfg s m).2 = none ∧
      (stepRT cfg s m).1.current_color = s.current_color) ∨
    (∃ c, (stepRT cfg s m).2 = some c ∧
      (stepRT cfg s m).1.current_color = some c ∧ s.current_color ≠ some c) := by
  cases m with
  | missionCurrent wp =>
    by_cases h1 : s.current_wp = some wp
    · simp [stepRT, h1]
    · cases hg : get_led_command cfg wp with
      | none => simp [stepRT, h1, hg]
      | some cmd =>
        by_cases h2 : s.current_color = some cmd
        · simp [stepRT, h1, hg, h2]
        · right
          exact ⟨cmd, by simp [stepRT, h1, hg, h2], by simp [stepRT, h1, hg, h2], h2⟩
  | heartbeat => simp [stepRT]
  | itemReached seq => simp [stepRT]
  | other => simp [stepRT]
  | timeout => simp [stepRT]

/-- After processing a waypoint-position message, `current_wp` holds that
waypoint's index. -/
theorem stepRT_wp (cfg : List (String × String)) (s : RTState) (wp : Int) :
    (stepRT cfg s (Msg.missionCurrent wp)).1.current_wp = some wp := by
  by_cases h1 : s.current_wp = some wp
  · simp [stepRT, h1]
  · cases hg : get_led_command cfg wp with
    | none => simp [stepRT, h1, hg]
    | some cmd =>
      by_cases h2 : s.current_color = some cmd
      · simp [stepRT, h1, hg, h2]
      · simp [stepRT, h1, hg, h2]

/-- The colors a runtime run dispatches, prefixed with the color current at
its start, form a chain of pairwise-distinct consecutive entries: no
dispatch repeats the color already applied. -/
theorem runRT_chain (cfg : List (String × String)) (msgs : List Msg) :
    ∀ s : RTState,
      List.Chain' Ne (optCons s.current_color (runRT cfg s msgs).2) := by
  induction msgs with
  | nil =>
    intro s
    cases hc : s.current_color <;> simp [runRT, optCons, hc]
  | cons m ms ih =>
    intro s
    rw [runRT_cons]
    rcases stepRT_spec cfg s m with ⟨h2, hcol⟩ | ⟨c, h2, hcol, hne⟩
    · rw [h2]
      have := ih (stepRT cfg s m).1
      rw [hcol] at this
      simpa [optCons] using this
    · rw [h2]
      have hnext := ih (stepRT cfg s m).1
      rw [hcol] at hnext
      cases hc : s.current_color with
      | none => simpa [optCons] using hnext
      | some p =>
        have hpc : p ≠ c := by
          intro h
          exact hne (by rw [hc, h])
        simp only [optCons] at hnext ⊢
        exact List.chain'_cons.mpr ⟨hpc, hnext⟩

/-- Each `mission_led.py` loop iteration either dispatches nothing and
preserves the current color, or dispatches exactly the color that becomes
the new current color, which differs from the previous one. -/
theorem stepML_spec (mp : List (Int × String)) (c : Option String) (m : Msg) :
    ((stepML mp c m).2 = none ∧ (stepML mp c m).1 = c) ∨
    (∃ t, (stepML mp c m).2 = some t ∧
      (stepML mp c m).1 = some t ∧ c ≠ some t) := by
  cases m with
  | itemReached seq =>
    cases hl : mp.lookup seq with
    | none => simp [stepML, hl]
    | some target =>
      by_cases h2 : c = some target
      · simp [stepML, hl, h2]
      · right
        exact ⟨target, by simp [stepML, hl, h2], by simp [stepML, hl, h2], h2⟩
  | heartbeat => simp [stepML]
  | missionCurrent seq => simp [stepML]
  | other => simp [stepML]
  | timeout => simp [stepML]

/-- The colors a `mission_led.py` run dispatches, prefixed with the color
current at its start, form a chain of pairwise-distinct consecutive
entries. -/
theorem runML_chain (mp : List (Int × String)) (msgs : List Msg) :
    ∀ c : Option String,
      List.Chain' Ne (optCons c (runML mp c msgs).2) := by
  induction msgs with
  | nil =>
    intro c
    cases c <;> simp [runML, optCons]
  | cons m ms ih =>
    intro c
    rw [runML_cons]
    rcases stepML_spec mp c m with ⟨h2, hcol⟩ | ⟨t, h2, hcol, hne⟩
    · rw [h2, hcol]
      simpa [optCons] using ih c
    · rw [h2, hcol]
      have hnext := ih (some t)
      simp only [optCons] at hnext
      cases c with
      | none => simpa [optCons] using hnext
      | some p =>
        have hpt : p ≠ t := fun h => hne (by rw [h])
        simp only [optCons]
        exact List.chain'_cons.mpr ⟨hpt, hnext⟩

/-- A device failure never changes the successor state of a loop iteration:
`current_color` is assigned after `set_all_leds` returns, whatever
happened inside the call. -/
theorem stepRTF_fst (cfg : List (String × String)) (s : RTState)
    (fail : Bool) (m : Msg) :
    (stepRTF cfg s fail m).1 = (stepRT cfg s m).1 := by
  cases m with
  | missionCurrent wp =>
    by_cases h1 : s.current_wp = some wp
    · simp [stepRTF, stepRT, h1]
    · cases hg : get_led_command cfg wp with
      | none => simp [stepRTF, stepRT, h1, hg]
      | some cmd =>
        by_cases h2 : s.current_color = some cmd
        · simp [stepRTF, stepRT, h1, hg, h2]
        · simp [stepRTF, stepRT, h1, hg, h2]
  | heartbeat => rfl
  | itemReached seq => rfl
  | other => rfl
  | timeout => rfl

/-- A device failure never changes whether and what a loop iteration
dispatches. -/
theorem stepRTF_snd (cfg : List (String × String)) (s : RTState)
    (fail : Bool) (m : Msg) :
    (stepRTF cfg s fail m).2.map Prod.fst = (stepRT cfg s m).2 := by
  cases m with
  | missionCurrent wp =>
    by_cases h1 : s.current_wp = some wp
    · simp [stepRTF, stepRT, h1]
    · cases hg : get_led_command cfg wp with
      | none => simp [stepRTF, stepRT, h1, hg]
      | some cmd =>
        by_cases h2 : s.current_color = some cmd
        · simp [stepRTF, stepRT, h1, hg, h2]
        · simp [stepRTF, stepRT, h1, hg, h2]
  | heartbeat => rfl
  | itemReached seq => rfl
  | other => rfl
  | timeout => rfl

/-- Membership in the key list after a Python dict assignment. -/
theorem dictInsert_keys_mem (m : List (Int × String)) (k : Int) (v : String)
    (i : Int) :
    i ∈ (dictInsert m k v).map Prod.fst ↔ (i ∈ m.map Prod.fst ∨ i = k) := by
  unfold dictInsert
  by_cases hA : m.any (fun p => p.1 == k)
  · simp only [if_pos hA]
    have hmap : (m.map (fun p => if p.1 == k then (k, v) else p)).map Prod.fst
        = m.map Prod.fst := by
      rw [List.map_map]
      apply List.map_congr_left
      intro p hp
      by_cases h : p.1 = k
      · simp [h]
      · simp [h]
    rw [hmap]
    have hk : k ∈ m.map Prod.fst := by
      rcases List.any_eq_true.mp hA with ⟨p, hp, hpk⟩
      have hpk2 : p.1 = k := by simpa using hpk
      exact hpk2 ▸ List.mem_map_of_mem Prod.fst hp
    constructor
    · intro h
      exact Or.inl h
    · rintro (h | rfl)
      · exact h
      · exact hk
  · simp [if_neg hA, List.mem_append]

/-- Key-membership invariant of the `load_led_map` fold: the accumulated
keys are the initial ones plus exactly the parsed values of the keys seen
so far. -/
theorem loadFold_keys_mem (l : List (String × String)) :
    ∀ (acc : List (Int × String)) (i : Int),
      (i ∈ (l.foldl mlLoadStep acc).map Prod.fst) ↔
        (i ∈ acc.map Prod.fst ∨ ∃ kv ∈ l, pyInt kv.1 = some i) := by
  induction l with
  | nil =>
    intro acc i
    simp
  | cons kv t ih =>
    intro acc i
    rw [List.foldl_cons]
    cases hp : pyInt kv.1 with
    | none =>
      have hstep : mlLoadStep acc kv = acc := by simp [mlLoadStep, hp]
      rw [hstep, ih]
      constructor
      · rintro (h | ⟨kv', hm, hkv'⟩)
        · exact Or.inl h
        · exact Or.inr ⟨kv', List.mem_cons_of_mem _ hm, hkv'⟩
      · rintro (h | ⟨kv', hm, hkv'⟩)
        · exact Or.inl h
        · rcases List.mem_cons.mp hm with rfl | hm'
          · rw [hp] at hkv'
            cases hkv'
          · exact Or.inr ⟨kv', hm', hkv'⟩
    | some idx =>
      have hstep : mlLoadStep acc kv = dictInsert acc idx (pyLower kv.2) := by
        simp [mlLoadStep, hp]
      rw [hstep, ih, dictInsert_keys_mem]
      constructor
      · rintro (⟨h | rfl⟩ | ⟨kv', hm, hkv'⟩)
        · exact Or.inl h
        · exact Or.inr ⟨kv, List.mem_cons_self kv t, hp⟩
        · exact Or.inr ⟨kv', List.mem_cons_of_mem _ hm, hkv'⟩
      · rintro (h | ⟨kv', hm, hkv'⟩)
        · exact Or.inl (Or.inl h)
        · rcases List.mem_cons.mp hm with rfl | hm'
          · rw [hp] at hkv'
            injection hkv' with hI
            exact Or.inl (Or.inr hI.symm)
          · exact Or.inr ⟨kv', hm', hkv'⟩

theorem runRTF_cons (cfg : List (String × String)) (s : RTState)
    (fl : List Bool) (m : Msg) (ms : List Msg) :
    runRTF cfg s fl (m :: ms) =
      (match stepRTF cfg s (fl.headD false) m with
       | (s1, none) => runRTF cfg s1 fl ms
       | (s1, some d) =>
         ((runRTF cfg s1 fl.tail ms).1, d :: (runRTF cfg s1 fl.tail ms).2)) := by
  rfl

/-- Whatever the device-failure schedule, the runtime loop reaches the same
final state and attempts the same dispatch sequence as the failure-free
run: failures are caught, logged and otherwise invisible to the engine. -/
theorem runRTF_eq_runRT (cfg : List (String × String)) (msgs : List Msg) :
    ∀ (s : RTState) (fl : List Bool),
      (runRTF cfg s fl msgs).1 = (runRT cfg s msgs).1 ∧
      (runRTF cfg s fl msgs).2.map Prod.fst = (runRT cfg s msgs).2 := by
  induction msgs with
  | nil =>
    intro s fl
    exact ⟨rfl, rfl⟩
  | cons m ms ih =>
    intro s fl
    have hf := stepRTF_fst cfg s (fl.headD false) m
    have hs := stepRTF_snd cfg s (fl.headD false) m
    rw [runRTF_cons, runRT_cons]
    cases hp : stepRTF cfg s (fl.headD false) m with
    | mk s1 d =>
      rw [hp] at hf hs
      cases d with
      | none =>
        have h1 : (stepRT cfg s m).1 = s1 := hf.symm
        have h2 : (stepRT cfg s m).2 = none := by simpa using hs.symm
        rw [h1, h2]
        simpa [optCons] using ih s1 fl
      | some d =>
        have h1 : (stepRT cfg s m).1 = s1 := hf.symm
        have h2 : (stepRT cfg s m).2 = some d.1 := by simpa using hs.symm
        rw [h1, h2]
        obtain ⟨ihf, ihs⟩ := ih s1 fl.tail
        exact ⟨ihf, by simp [optCons, ihs]⟩

/-! Claim theorems -/

/-- C1: for every telemetry sequence of waypoint-position messages,
including immediate repeats, the playback loop invokes the color command
sink at most once per distinct resolved-color change and never once per
raw message: the dispatch list of any run of either loop has
pairwise-distinct consecutive entries, an immediately repeated
waypoint-position message dispatches nothing the second time, and on the
scenario plan 0:OFF 1:blank 2:red 3:blank 4:green with telemetry
0,0,1,2,2,3,4 the sink is invoked exactly three times, with off, then red,
then green. -/
theorem C1_dedup_playback (cfg : List (String × String))
    (mp : List (Int × String)) (msgs : List Msg) (s : RTState) (wp : Int) :
    List.Chain' Ne (runRT cfg initRT msgs).2 ∧
    List.Chain' Ne (runML mp none msgs).2 ∧
    stepRT cfg (stepRT cfg s (Msg.missionCurrent wp)).1 (Msg.missionCurrent wp)
      = ((stepRT cfg s (Msg.missionCurrent wp)).1, none) ∧
    (runRT planC1 initRT msgsC1).2 = ["off", "red", "green"] ∧
    (runRT planC1 initRT msgsC1).2.map (fun c => directiveOf (some c))
      = [Directive.off, Directive.setColor "red", Directive.setColor "green"] := by
  refine ⟨?_, ?_, ?_, by decide, by decide⟩
  · have h := runRT_chain cfg msgs initRT
    simpa [initRT, optCons] using h
  · have h := runML_chain mp msgs none
    simpa [optCons] using h
  · have hwp := stepRT_wp cfg s wp
    cases h : stepRT cfg s (Msg.missionCurrent wp) with
    | mk s1 d =>
      rw [h] at hwp
      simp only at hwp
      simp [stepRT, hwp]

/-- C2 counterexample: with the plan 0:blue 1:blue and the device failing
on the first dispatch, the engine still records `current_color = blue`
(the claim says the color is not updated on failure) and attempts exactly
one dispatch in total (the claim says waypoint 1 triggers a retry). -/
theorem C2_counterexample :
    (runRTF planC2 initRT [true] msgsC2).2 = [("blue", true)] ∧
    (runRTF planC2 initRT [true] msgsC2).1.current_color = some "blue" ∧
    (runRTF planC2 initRT [true] msgsC2).1.current_color ≠ none := by
  refine ⟨by decide, by decide, by decide⟩

/-- C2 amended: a failed sink call is logged and the loop continues, but
the engine is failure-oblivious: under any device-failure schedule the
loop reaches the same state, with `current_color` advanced to the
attempted color even on failure, and attempts the same dispatch sequence
as the failure-free run, so a next waypoint resolving to the same color is
skipped rather than retried. -/
theorem C2_failure_oblivious (cfg : List (String × String)) (s : RTState)
    (fl : List Bool) (msgs : List Msg) :
    (runRTF cfg s fl msgs).1 = (runRT cfg s msgs).1 ∧
    (runRTF cfg s fl msgs).2.map Prod.fst = (runRT cfg s msgs).2 :=
  runRTF_eq_runRT cfg msgs s fl

/-- C3 counterexample: in `mission_led_runtime.py` a cancellation arriving
after the first loop iteration, with `current_color = red` and more
telemetry pending, produces no final off dispatch at all: the loop has no
interrupt handler, so the claimed exactly-one final off dispatch is
absent. -/
theorem C3_counterexample :
    (runRT planC3 initRT [Msg.missionCurrent 0]).1.current_color = some "red" ∧
    rtRunCancel planC3 initRT [Msg.missionCurrent 0, Msg.missionCurrent 1] 1
      = ["red"] ∧
    List.count "off"
      (rtRunCancel planC3 initRT [Msg.missionCurrent 0, Msg.missionCurrent 1] 1)
      = 0 := by
  refine ⟨by decide, by decide, by decide⟩

/-- C3 amended: only `mission_led.py` implements the shutdown contract: a
cancellation after any number of processed messages yields exactly one
final off dispatch appended after the dispatches of the processed prefix,
and no later telemetry is processed; `mission_led_runtime.py` has no
cancellation handler and ends with only the dispatches already made. -/
theorem C3_cancellation (mp : List (Int × String)) (c : Option String)
    (msgs : List Msg) (k : Nat) (cfg : List (String × String)) (s : RTState) :
    mlRunCancel mp c msgs k = (runML mp c (msgs.take k)).2 ++ ["off"] ∧
    (mlRunCancel mp c msgs k).getLast? = some "off" ∧
    List.count "off" (mlRunCancel mp c msgs k)
      = List.count "off" ((runML mp c (msgs.take k)).2) + 1 ∧
    rtRunCancel cfg s msgs k = (runRT cfg s (msgs.take k)).2 := by
  refine ⟨rfl, ?_, ?_, rfl⟩
  · unfold mlRunCancel
    rw [List.getLast?_concat]
  · unfold mlRunCancel
    simp [List.count_append]

/-- C4 counterexample: the directive chartreuse names no `COLOR_MAP` key,
yet the runtime engine dispatches it to the sink and updates
`current_color` to it, where the claim requires a logged skip with no
dispatch and no state update. -/
theorem C4_counterexample :
    COLOR_MAP.lookup "chartreuse" = none ∧
    (runRT planC4 initRT [Msg.missionCurrent 0]).2 = ["chartreuse"] ∧
    (runRT planC4 initRT [Msg.missionCurrent 0]).1.current_color
      = some "chartreuse" := by
  refine ⟨by decide, by decide, by decide⟩

/-- C4 amended: the runtime engine never consults the color table: on a
new waypoint any resolved name differing from `current_color` is dispatched
and becomes `current_color`, recognized or not; the table check lives in
the sink process `led25.py`, which rejects an unknown name with exit code
1 through `usage()` without applying a color, and the playback loop is not
aborted. -/
theorem C4_unknown_color :
    (∀ (cfg : List (String × String)) (s : RTState) (wp : Int) (cmd : String),
      s.current_wp ≠ some wp → get_led_command cfg wp = some cmd →
      s.current_color ≠ some cmd →
      stepRT cfg s (Msg.missionCurrent wp)
        = (⟨some wp, some cmd⟩, some cmd)) ∧
    (∀ name : String, COLOR_MAP.lookup (pyLower name) = none →
      led25Main [name] = Except.error 1) := by
  constructor
  · intro cfg s wp cmd h1 h2 h3
    simp [stepRT, h1, h2, h3]
  · intro name h
    simp [led25Main, h]

/-- Witness for C4: the unrecognized name chartreuse is dispatched by the
engine and rejected by the sink. -/
theorem C4_unknown_color_witness :
    (initRT.current_wp ≠ some 0 ∧
     get_led_command planC4 0 = some "chartreuse" ∧
     initRT.current_color ≠ some "chartreuse" ∧
     stepRT planC4 initRT (Msg.missionCurrent 0)
       = (⟨some 0, some "chartreuse"⟩, some "chartreuse")) ∧
    (COLOR_MAP.lookup (pyLower "chartreuse") = none ∧
     led25Main ["chartreuse"] = Except.error 1) :=
  ⟨⟨by decide, by decide, by decide,
    C4_unknown_color.1 planC4 initRT 0 "chartreuse" (by decide) (by decide)
      (by decide)⟩,
   ⟨by decide, C4_unknown_color.2 "chartreuse" (by decide)⟩⟩

/-- C5 counterexample: the `mission_led.py` pipeline, which the claim also
covers, violates the round-trip: `load_led_map` stores `str(v).lower()`
with no trimming and no blank handling, so the scenario plan loads with
its blank values intact, the reach loop dispatches all five stored values
including two empty strings instead of resolving blanks to no-change, and
a value with surrounding whitespace such as space-OFF-space is stored as
space-off-space rather than matching the reserved off token. -/
theorem C5_counterexample :
    load_led_map planC1
      = [(0, "off"), (1, ""), (2, "red"), (3, ""), (4, "green")] ∧
    (runML (load_led_map planC1) none
      [Msg.itemReached 0, Msg.itemReached 1, Msg.itemReached 2,
       Msg.itemReached 3, Msg.itemReached 4]).2
      = ["off", "", "red", "", "green"] ∧
    load_led_map [("0", " OFF ")] = [(0, " off ")] := by
  refine ⟨by decide, by decide, by decide⟩

/-- C5 amended: only the runtime pipeline implements the directive
encoding: resolving a loaded entry with `get_led_command` reproduces the
encoded variant (trimmed, lower-cased; empty normal form resolves to
no-change, off in any casing to off, anything else to set-color of the
normal form). The `mission_led.py` pipeline instead stores the
lower-cased, untrimmed value for every parseable key, with no blank
special-casing, and on reach dispatches any stored value that differs
from the current color, an empty string included. -/
theorem C5_directive_encoding :
    (∀ (cfg : List (String × String)) (w : Int) (v : String),
      cfg.lookup (toString w) = some v →
      resolveDirective cfg w =
        (if pyLower (pyStrip v) = "" then Directive.noChange
         else if pyLower (pyStrip v) = "off" then Directive.off
         else Directive.setColor (pyLower (pyStrip v)))) ∧
    (∀ (m : List (Int × String)) (kv : String × String) (idx : Int),
      pyInt kv.1 = some idx →
      mlLoadStep m kv = dictInsert m idx (pyLower kv.2)) ∧
    (∀ (mp : List (Int × String)) (c : Option String) (seq : Int)
       (t : String),
      mp.lookup seq = some t → c ≠ some t →
      stepML mp c (Msg.itemReached seq) = (some t, some t)) := by
  refine ⟨?_, ?_, ?_⟩
  · intro cfg w v h
    unfold resolveDirective get_led_command
    rw [h]
    by_cases he : pyStrip v = ""
    · simp [he, directiveOf, show pyLower "" = "" from rfl]
    · have hne : ¬pyLower (pyStrip v) = "" :=
        fun hc => he ((pyLower_eq_empty_iff _).mp hc)
      simp [he, hne, directiveOf]
  · intro m kv idx h
    simp [mlLoadStep, h]
  · intro mp c seq t h1 h2
    simp [stepML, h1, h2]

/-- Witness for C5: runtime resolution of the entry 2 mapped to Red, the
`mission_led.py` loader storing a blank value verbatim, and the reach
step dispatching that stored blank. -/
theorem C5_directive_encoding_witness :
    (List.lookup (toString (2 : Int)) [("2", "Red")] = some "Red" ∧
     resolveDirective [("2", "Red")] 2 =
       (if pyLower (pyStrip "Red") = "" then Directive.noChange
        else if pyLower (pyStrip "Red") = "off" then Directive.off
        else Directive.setColor (pyLower (pyStrip "Red")))) ∧
    (pyInt "1" = some 1 ∧
     mlLoadStep [] ("1", "") = dictInsert [] 1 (pyLower "")) ∧
    (List.lookup (1 : Int) [((1 : Int), "")] = some "" ∧
     (none : Option String) ≠ some "" ∧
     stepML [((1 : Int), "")] none (Msg.itemReached 1) = (some "", some "")) :=
  ⟨⟨by decide, C5_directive_encoding.1 [("2", "Red")] 2 "Red" (by decide)⟩,
   ⟨by decide, C5_directive_encoding.2.1 [] ("1", "") 1 (by decide)⟩,
   ⟨by decide, by decide,
    C5_directive_encoding.2.2 [((1 : Int), "")] none 1 "" (by decide)
      (by decide)⟩⟩

/-- C6 counterexample: both cited loaders break the claim. `int()` also
parses negative keys, so `load_led_map` retains the entry with key -1,
not skipped, although -1 is not a non-negative integer, while dropping
only the unparseable key x; and the runtime loader `load_led_config`
performs no key filtering at all: it returns the parsed mapping
unchanged, the unparseable key x retained with no skip and no warning. -/
theorem C6_counterexample :
    load_led_map [("-1", "red"), ("x", "blue")] = [(-1, "red")] ∧
    (-1 : Int) ∈ (load_led_map [("-1", "red"), ("x", "blue")]).map Prod.fst ∧
    (-1 : Int) < 0 ∧
    load_led_config
        (DocState.parsed (PyValue.dict [("x", "blue"), ("-1", "red")]))
      = [("x", "blue"), ("-1", "red")] := by
  refine ⟨by decide, by decide, by decide, by decide⟩

/-- C6 amended: only `mission_led.py`'s `load_led_map` validates keys, and
it skips with a non-fatal warning exactly the keys that fail `int()`, so
its loaded keys are exactly the integer values of the keys that parse,
negative integers included; the runtime loader `load_led_config` performs
no key validation at all and returns the parsed mapping unchanged,
unparseable keys retained without a warning. -/
theorem C6_key_handling :
    (∀ (raw : List (String × String)) (i : Int),
      (i ∈ (load_led_map raw).map Prod.fst) ↔
        (∃ kv ∈ raw, pyInt kv.1 = some i)) ∧
    (∀ entries : List (String × String),
      load_led_config (DocState.parsed (PyValue.dict entries)) = entries) := by
  constructor
  · intro raw i
    unfold load_led_map
    rw [loadFold_keys_mem]
    simp
  · intro entries
    rfl

/-- Witness for C6: key -1 is in the map loaded by `load_led_map` because
the key string -1 parses with `int()`, and `load_led_config` returns a
mapping with the unparseable key x unchanged. -/
theorem C6_key_handling_witness :
    (((-1 : Int) ∈ (load_led_map [("-1", "red"), ("x", "blue")]).map Prod.fst)
      ↔ (∃ kv ∈ [("-1", "red"), ("x", "blue")], pyInt kv.1 = some (-1 : Int))) ∧
    load_led_config (DocState.parsed (PyValue.dict [("x", "blue")]))
      = [("x", "blue")] :=
  ⟨C6_key_handling.1 [("-1", "red"), ("x", "blue")] (-1),
   C6_key_handling.2 [("x", "blue")]⟩

/-- C7: a plan document holding an empty mapping is accepted by the loader
without error, and the runtime session then exits with code 0 and an empty
dispatch list before entering the event loop, whatever telemetry would
have arrived: the sink is never invoked and no telemetry is processed. -/
theorem C7_empty_plan (msgs : List Msg) :
    load_led_config (DocState.parsed (PyValue.dict [])) = [] ∧
    runtimeSession true ["p.led.json"] (DocState.parsed (PyValue.dict [])) msgs
      = ([], some 0) :=
  ⟨rfl, rfl⟩

/-- C8: a waypoint index absent from the loaded plan resolves to no
command, and the loop iteration for it dispatches nothing and leaves
`current_color` unchanged; resolution is total, so no error is raised. -/
theorem C8_absent_key (cfg : List (String × String)) (s : RTState) (w : Int)
    (h : cfg.lookup (toString w) = none) :
    get_led_command cfg w = none ∧
    (stepRT cfg s (Msg.missionCurrent w)).2 = none ∧
    (stepRT cfg s (Msg.missionCurrent w)).1.current_color
      = s.current_color := by
  have hg : get_led_command cfg w = none := by
    unfold get_led_command
    rw [h]
  refine ⟨hg, ?_, ?_⟩ <;>
    by_cases h1 : s.current_wp = some w <;> simp [stepRT, h1, hg]

/-- Witness for C8 at waypoint 0 under a plan that only maps key 1. -/
theorem C8_absent_key_witness :
    List.lookup (toString (0 : Int)) [("1", "red")] = none ∧
    (get_led_command [("1", "red")] 0 = none ∧
     (stepRT [("1", "red")] initRT (Msg.missionCurrent 0)).2 = none ∧
     (stepRT [("1", "red")] initRT (Msg.missionCurrent 0)).1.current_color
       = initRT.current_color) :=
  ⟨by decide, C8_absent_key [("1", "red")] initRT 0 (by decide)⟩

/-- C9 counterexample: with the plans directory present and a plan listed,
a selected plan file that is missing at load time makes the runtime exit
with code 0, although the claim requires a non-zero code when the plan
file is missing. -/
theorem C9_counterexample :
    runtimeStartExit true ["p.led.json"] DocState.missing = some 0 := by
  decide

/-- C9 amended: `mission_led.py` exits 1 when its config file is missing
or yields no valid entries, and exits 0 on graceful shutdown after a
cancellation; `mission_led_runtime.py` exits 1 when the plans directory is
missing or lists no plan files, but exits 0, not non-zero, whenever the
selected configuration loads empty, including when the file is missing or
malformed. -/
theorem C9_exit_codes :
    (∀ raw : List (String × String), missionLedStartExit false raw = some 1) ∧
    (∀ raw : List (String × String), load_led_map raw = [] →
      missionLedStartExit true raw = some 1) ∧
    (∀ (raw : List (String × String)) (msgs : List Msg) (k : Nat),
      load_led_map raw ≠ [] →
      (missionLedSession true raw msgs (some k)).2 = some 0) ∧
    (∀ (files : List String) (doc : DocState),
      runtimeStartExit false files doc = some 1) ∧
    (∀ doc : DocState, runtimeStartExit true [] doc = some 1) ∧
    (∀ (files : List String) (doc : DocState),
      choose_led_plan_outcome true files = none → load_led_config doc = [] →
      runtimeStartExit true files doc = some 0) := by
  refine ⟨?_, ?_, ?_, ?_, ?_, ?_⟩
  · intro raw
    rfl
  · intro raw h
    simp [missionLedStartExit, List.isEmpty_iff, h]
  · intro raw msgs k h
    simp [missionLedSession, List.isEmpty_iff, h]
  · intro files doc
    rfl
  · intro doc
    rfl
  · intro files doc h1 h2
    simp [runtimeStartExit, h1, h2]

/-- Witness for C9 at concrete startup configurations. -/
theorem C9_exit_codes_witness :
    missionLedStartExit false [("0", "red")] = some 1 ∧
    (load_led_map [("x", "red")] = [] ∧
     missionLedStartExit true [("x", "red")] = some 1) ∧
    (load_led_map [("0", "red")] ≠ [] ∧
     (missionLedSession true [("0", "red")] [] (some 0)).2 = some 0) ∧
    runtimeStartExit false ["p.led.json"] DocState.missing = some 1 ∧
    runtimeStartExit true [] DocState.missing = some 1 ∧
    (choose_led_plan_outcome true ["q.led.json"] = none ∧
     load_led_config DocState.unparsable = [] ∧
     runtimeStartExit true ["q.led.json"] DocState.unparsable = some 0) :=
  ⟨C9_exit_codes.1 _,
   ⟨by decide, C9_exit_codes.2.1 _ (by decide)⟩,
   ⟨by decide, C9_exit_codes.2.2.1 _ [] 0 (by decide)⟩,
   C9_exit_codes.2.2.2.1 _ _,
   C9_exit_codes.2.2.2.2.1 _,
   ⟨by decide, by decide,
    C9_exit_codes.2.2.2.2.2 _ _ (by decide) (by decide)⟩⟩

/-- C10: the runtime plan loader is total over the state of its input
document: a missing file, a read or decode exception, and a parsed
non-dict top level all yield the empty mapping, a parsed dict is returned
as is, and in no case does an exception reach the caller. -/
theorem C10_loader_total (d : DocState) :
    load_led_config d =
      (match d with
       | DocState.parsed (PyValue.dict entries) => entries
       | _ => []) := by
  cases d with
  | missing => rfl
  | unparsable => rfl
  | parsed v => cases v <;> rfl

end DroneLED
